import Mathlib

/-!
Verification development for the MultiDimensions-Reflect-LoopRecommender
repository: a shallow embedding in Lean 4 of the ticket data model, the
multi-factor scoring engine (`DataProcessor.rank_tickets`), the quality
evaluator (`RecommendationEvaluator.evaluate`), the LLM-client score
extraction (`LLMClient._extract_score` / `evaluate_needs_match`), the
dynamic dotted-path adjustment merge (`ReflectionEngine.apply_improvements`)
and the bounded reflect/rebuild control loop (`ReflectionEngine.recommend`),
together with theorems settling the specification's claims.

Numeric values (Python floats) are modelled as exact rationals; instants
(Python datetimes) are modelled as rational minute counts on a common
timeline, so that hour differences are `(a - b) / 60`.  Side-effecting
identifiers (UUIDs), wall-clock timing fields and logging are not modelled.
-/

/-- Transport mode enumeration (`TransportType` in `src/models/ticket_data.py`). -/
inductive TransportType where
  | flight | train | bus | ship
  deriving DecidableEq, Repr

/-- Seat class enumeration (`SeatClass` in `src/models/ticket_data.py`). -/
inductive SeatClass where
  | economy | premiumEconomy | business | first
  | hardSeat | softSeat | hardSleeper | softSleeper | standing
  | highSpeedSecond | highSpeedFirst | highSpeedBusiness
  deriving DecidableEq, Repr

/-- Time-of-day preference enumeration (`TimePreference` in `src/models/user_needs.py`). -/
inductive TimePreference where
  | morning | afternoon | evening | night | any
  deriving DecidableEq, Repr

/-- Lower-case string tag of a time preference (the pydantic enum `.value`). -/
def TimePreference.value : TimePreference → String
  | .morning => "morning"
  | .afternoon => "afternoon"
  | .evening => "evening"
  | .night => "night"
  | .any => "any"

/-- Price level enumeration (`PriceLevel` in `src/models/user_needs.py`). -/
inductive PriceLevel where
  | economy | standard | premium | luxury | any
  deriving DecidableEq, Repr

/-- Travel priority enumeration (`TravelPriority` in `src/models/user_needs.py`). -/
inductive TravelPriority where
  | price | time | comfort | convenience | reliability
  deriving DecidableEq, Repr

/-- Departure/return time window (`TimeRange` in `src/models/user_needs.py`).
`start_time` and `end_time` model the `datetime` members of the
`Union[datetime, time]` fields as minutes on a common timeline; the code's
`isinstance(_, datetime)` guards mean plain time-of-day values are treated
as absent, which is what `none` also covers. -/
structure TimeRange where
  start_time : Option ℚ
  end_time : Option ℚ
  flexible_hours : Option ℤ
  preferred_time : Option TimePreference
  deriving DecidableEq, Repr

/-- Budget range (`BudgetRange` in `src/models/user_needs.py`). -/
structure BudgetRange where
  min_price : Option ℚ
  max_price : Option ℚ
  target_price : Option ℚ
  price_level : Option PriceLevel
  deriving DecidableEq, Repr

/-- Structured user needs (`UserNeeds` in `src/models/user_needs.py`).
The `special_requirements` and `historical_preference` fields are never read
by the core triad and are omitted. -/
structure UserNeeds where
  user_id : Option String
  departure_city : String
  arrival_city : String
  departure_time_range : TimeRange
  return_time_range : Option TimeRange
  preferred_transport_types : List TransportType
  preferred_seat_classes : Option (List SeatClass)
  budget : BudgetRange
  priorities : List TravelPriority
  max_transfers : Option ℤ
  max_duration_minutes : Option ℤ
  deriving DecidableEq, Repr

/-- Ticket record (`TicketData` in `src/models/ticket_data.py`).  The flight
and train subclasses only add fields the core scoring and evaluation never
read (baggage, aircraft type, high-speed flag, stop list), so a single
structure suffices.  Entries of `transfer_info` are opaque to the core
(only presence and count matter, through `is_direct`), so they are modelled
as strings. -/
structure Ticket where
  id : String
  transport_type : TransportType
  departure_city : String
  arrival_city : String
  departure_time : ℚ
  arrival_time : ℚ
  price : ℚ
  seat_class : SeatClass
  available_seats : ℤ
  company : String
  transport_number : String
  departure_station : String
  arrival_station : String
  duration_minutes : ℤ
  transfer_info : Option (List String)
  deriving DecidableEq, Repr

/-- Derived fact `TicketData.is_direct`: the transfer list is absent or empty. -/
def Ticket.is_direct (t : Ticket) : Bool :=
  t.transfer_info = none || t.transfer_info = some []

/-- Python truthiness of an optional float field (`if x:` is false for
`None` and for `0.0`). -/
def truthyOptQ : Option ℚ → Bool
  | none => false
  | some q => decide (q ≠ 0)

/-- Python truthiness of an optional int field. -/
def truthyOptZ : Option ℤ → Bool
  | none => false
  | some z => decide (z ≠ 0)

/-- Python truthiness of an optional list field (`if xs:` is false for
`None` and for `[]`). -/
def truthyOptList {α : Type} : Option (List α) → Bool
  | none => false
  | some l => !l.isEmpty

/-! ## Scoring engine (`DataProcessor.rank_tickets`) -/

/-- Factor 1 of `rank_tickets`: transport-mode match. -/
def transportScore (needs : UserNeeds) (t : Ticket) : ℚ :=
  if t.transport_type ∈ needs.preferred_transport_types then 100 else 50

/-- Factor 2 of `rank_tickets`: seat-class match (default 100 when no truthy
seat preference is set). -/
def seatScore (needs : UserNeeds) (t : Ticket) : ℚ :=
  if truthyOptList needs.preferred_seat_classes then
    match needs.preferred_seat_classes with
    | some l => if t.seat_class ∈ l then 100 else 60
    | none => 100
  else 100

/-- Factor 3 of `rank_tickets`: price fit.  The max-price penalty applies
first; a truthy min-price with a price below it then overwrites the score,
exactly as the two sequential `if` statements in the source do. -/
def priceScore (needs : UserNeeds) (t : Ticket) : ℚ :=
  let s1 : ℚ :=
    match needs.budget.max_price with
    | some m => if m ≠ 0 ∧ m < t.price then max 0 (100 - (t.price - m) / m * 100) else 100
    | none => 100
  match needs.budget.min_price with
  | some m => if m ≠ 0 ∧ t.price < m then max 0 (100 - (m - t.price) / m * 50) else s1
  | none => s1

/-- Factor 4 of `rank_tickets`: departure-time fit, minus 5 points per hour
outside the `[start_time, end_time]` window. -/
def timeScore (needs : UserNeeds) (t : Ticket) : ℚ :=
  match needs.departure_time_range.start_time, needs.departure_time_range.end_time with
  | some st, some en =>
    if t.departure_time < st then
      max 0 (100 - (st - t.departure_time) / 60 * 5)
    else if en < t.departure_time then
      max 0 (100 - (t.departure_time - en) / 60 * 5)
    else 100
  | _, _ => 100

/-- Factor 5 of `rank_tickets`: duration reasonableness, minus 10 points per
hour above the (truthy) maximum duration. -/
def durationScore (needs : UserNeeds) (t : Ticket) : ℚ :=
  match needs.max_duration_minutes with
  | some d =>
    if d ≠ 0 ∧ d < t.duration_minutes then
      max 0 (100 - ((t.duration_minutes : ℚ) - (d : ℚ)) / 60 * 10)
    else 100
  | none => 100

/-- Factor 6 of `rank_tickets`: seat availability, `min(100, seats * 10)` for
positive availability and 0 otherwise. -/
def availabilityScore (t : Ticket) : ℚ :=
  if 0 < t.available_seats then min 100 ((t.available_seats : ℚ) * 10) else 0

/-- One `(factor, description, weight, score)` entry of the reasons list
built by `rank_tickets`. -/
structure FactorScore where
  factor : String
  description : String
  weight : ℚ
  score : ℚ
  deriving DecidableEq, Repr

/-- The six-factor reasons list `rank_tickets` builds for one ticket. -/
def factorReasons (needs : UserNeeds) (t : Ticket) : List FactorScore :=
  [ ⟨"transport_type", "交通方式偏好匹配度", 0.15, transportScore needs t⟩,
    ⟨"seat_class", "座位等级匹配度", 0.1, seatScore needs t⟩,
    ⟨"price", "价格符合度", 0.2, priceScore needs t⟩,
    ⟨"departure_time", "出发时间符合度", 0.25, timeScore needs t⟩,
    ⟨"duration", "行程时间合理性", 0.15, durationScore needs t⟩,
    ⟨"availability", "座位可用性", 0.15, availabilityScore t⟩ ]

/-- One entry of the list `rank_tickets` returns: the ticket, its weighted
total score and its factor breakdown. -/
structure ScoredTicket where
  ticket : Ticket
  total : ℚ
  reasons : List FactorScore
  deriving DecidableEq, Repr

/-- Scores one ticket: the reasons list and the weighted total
`sum(weight * score)` accumulated over it, as in the source loop. -/
def scoreTicket (needs : UserNeeds) (t : Ticket) : ScoredTicket :=
  let reasons := factorReasons needs t
  { ticket := t
    total := reasons.foldl (fun acc r => acc + r.weight * r.score) 0
    reasons := reasons }

/-- Descending-score ordering used by the final
`scored_tickets.sort(key=lambda x: x[1], reverse=True)`. -/
def scoreGE (a b : ScoredTicket) : Prop := b.total ≤ a.total

instance : DecidableRel scoreGE := fun a b => inferInstanceAs (Decidable (b.total ≤ a.total))

instance : IsTotal ScoredTicket scoreGE := ⟨fun a b => le_total b.total a.total⟩

instance : IsTrans ScoredTicket scoreGE := ⟨fun _ _ _ h1 h2 => le_trans h2 h1⟩

/-- Embedding of `DataProcessor.rank_tickets`: score every ticket in input
order, then sort by descending total score.  Python's `list.sort` is a
stable sort, which as a function on lists is exactly stable insertion sort
for the descending relation `scoreGE`. -/
def rankTickets (tickets : List Ticket) (needs : UserNeeds) : List ScoredTicket :=
  (tickets.map (scoreTicket needs)).insertionSort scoreGE

example : transportScore
    { user_id := none, departure_city := "北京", arrival_city := "上海",
      departure_time_range := ⟨none, none, none, some .morning⟩,
      return_time_range := none, preferred_transport_types := [.train],
      preferred_seat_classes := none,
      budget := ⟨none, some 1000, none, none⟩,
      priorities := [.price], max_transfers := none, max_duration_minutes := none }
    { id := "t", transport_type := .train, departure_city := "北京",
      arrival_city := "上海", departure_time := 480, arrival_time := 780,
      price := 600, seat_class := .hardSeat, available_seats := 10,
      company := "c", transport_number := "n", departure_station := "s1",
      arrival_station := "s2", duration_minutes := 300, transfer_info := none }
    = 100 := by norm_num [transportScore]

/-! ## Dynamic attribute objects and `ReflectionEngine.apply_improvements`

The reflect capability returns a sparse JSON map from dotted attribute paths
to values, and `apply_improvements` applies it to a deep copy of the needs
object with `hasattr`/`getattr`/`setattr`.  Python objects are modelled here
as attribute lists: `anil`/`acons` build an object as an ordered list of
named data-field slots, and `leaf` is an attribute-less value (numbers,
strings, `None`, lists).  The model covers the declared pydantic data
fields only.  Real Python `hasattr` is additionally true for `BaseModel`
methods (`copy`, `dict`, `json`, ...), class attributes, dunder attributes,
and the builtin attributes of leaf values (`float.real`, `str.strip`, ...);
on all of those, the guarded final `setattr` of `apply_improvements` does
not assign but raises (pydantic v1's `__setattr__` rejects every name that
is not a declared field, and builtin attributes are read-only), which this
total-function model does not render.  The theorems below therefore consult
the model only at segments drawn from `declaredFieldNames`, where — because
no declared field name is also a method, class or builtin attribute of any
object reachable from a needs instance — the model's `hasattr`/`getattr`
agree with Python's and the guarded `setattr`, when it fires, always
targets a declared field, which pydantic v1 accepts unvalidated.  The
embedding is pure, which renders the deep copy: the input object is a value
and is never modified. -/

/-- Attribute-less dynamic leaf value. -/
inductive PyLeaf where
  | num : ℚ → PyLeaf
  | str : String → PyLeaf
  | boolean : Bool → PyLeaf
  | pynone : PyLeaf
  deriving DecidableEq, Repr

/-- Dynamic attribute object: a leaf value, or an ordered list of named
attribute slots built from `anil` and `acons`. -/
inductive PyObj where
  | leaf : PyLeaf → PyObj
  | anil : PyObj
  | acons : String → PyObj → PyObj → PyObj
  deriving DecidableEq, Repr

/-- Python `hasattr(obj, name)` over the data-field attribute model; it
coincides with Python's `hasattr` exactly for names in
`declaredFieldNames` (see the section comment). -/
def PyObj.hasattr : PyObj → String → Bool
  | .leaf _, _ => false
  | .anil, _ => false
  | .acons n _ rest, s => n = s || rest.hasattr s

/-- Python `getattr(obj, name)` over the attribute model (the first slot with
the given name). -/
def PyObj.getattr : PyObj → String → Option PyObj
  | .leaf _, _ => none
  | .anil, _ => none
  | .acons n v rest, s => if n = s then some v else rest.getattr s

/-- Python `setattr(obj, name, value)` over the attribute model (replaces the
first slot with the given name; a no-op when the slot does not exist, which
never happens in `apply_improvements` because every `setattr` there is
guarded by `hasattr`). -/
def PyObj.setattr : PyObj → String → PyObj → PyObj
  | .leaf l, _, _ => .leaf l
  | .anil, _, _ => .anil
  | .acons n v rest, s, value =>
    if n = s then .acons n value rest else .acons n v (rest.setattr s value)

/-- Splitting accumulator for `splitDots`, by structural recursion over the
characters. -/
def splitDotsAux (sep : Char) : List Char → List Char → List (List Char)
  | [], acc => [acc.reverse]
  | c :: rest, acc =>
    if c = sep then acc.reverse :: splitDotsAux sep rest []
    else splitDotsAux sep rest (c :: acc)

/-- Python `key.split('.')`: split a key into its dotted path segments (a
key without dots yields the one-element list, an empty key yields one empty
segment, exactly as `str.split` with an explicit separator does). -/
def splitDots (k : String) : List String :=
  (splitDotsAux '.' k.toList []).map String.mk

/-- The declared field names of the pydantic models reachable by attribute
paths from a `UserNeeds` instance (`UserNeeds`, `TimeRange`,
`BudgetRange`).  None of these names is also a `BaseModel` method or class
attribute, a datetime/float/str/list/dict/enum builtin attribute, or a
dunder name, so for segments drawn from this list the data-field model's
`hasattr`/`getattr` coincide with Python's on every object reachable from a
needs instance, and a guarded `setattr` on such a name always targets a
declared field of a pydantic object, which pydantic v1 assigns without
validation instead of raising. -/
def declaredFieldNames : List String :=
  ["user_id", "departure_city", "arrival_city", "departure_time_range",
   "return_time_range", "preferred_transport_types", "preferred_seat_classes",
   "budget", "priorities", "max_transfers", "max_duration_minutes",
   "special_requirements", "historical_preference",
   "start_time", "end_time", "flexible_hours", "preferred_time",
   "min_price", "max_price", "target_price", "price_level"]

/-- Application of one dotted-path key, mirroring the body of the
`for key, value in adjusted_params.items()` loop of
`ReflectionEngine.apply_improvements`: walk the intermediate path segments,
`break`-ing out at the first segment that is not an attribute; then set the
final segment on whatever object the walk stopped at, if that object has it.
A functional update along the walked prefix renders the in-place mutation of
the nested object. -/
def applyKey (o : PyObj) (intermediates : List String) (last : String) (value : PyObj) :
    PyObj :=
  match intermediates with
  | [] => if o.hasattr last then o.setattr last value else o
  | p :: ps =>
    match o.getattr p with
    | some child => o.setattr p (applyKey child ps last value)
    | none => if o.hasattr last then o.setattr last value else o

/-- Embedding of `ReflectionEngine.apply_improvements`: split every key on
`.` and apply it to the (copied) needs object; the loop continues with the
remaining keys whatever a single key did. -/
def applyImprovements (o : PyObj) (params : List (String × PyObj)) : PyObj :=
  params.foldl
    (fun acc kv =>
      let parts := splitDots kv.1
      applyKey acc parts.dropLast (parts.getLastD "") kv.2)
    o

/-! ## Recommendation model (`src/models/recommendation.py`) -/

/-- Python `round` to one decimal place with ties to even, used by the
pydantic validator of `RecommendationScore.overall_score` (modelled exactly
over rationals). -/
def pyRound1 (q : ℚ) : ℚ :=
  let x := q * 10
  let f : ℤ := ⌊x⌋
  let r := x - (f : ℚ)
  let n : ℤ :=
    if r < 1/2 then f else if 1/2 < r then f + 1 else if f % 2 = 0 then f else f + 1
  (n : ℚ) / 10

/-- Quality score record (`RecommendationScore`): three dimension scores and
the overall score. -/
structure RecommendationScore where
  needs_match_score : ℚ
  completeness_score : ℚ
  practicality_score : ℚ
  overall_score : ℚ
  deriving DecidableEq, Repr

/-- Constructor applying the `calculate_overall_score` validator: a zero
overall score is replaced by the weighted sum `0.5 / 0.3 / 0.2` of the three
dimensions, rounded to one decimal. -/
def mkRecommendationScore (nm c p ov : ℚ) : RecommendationScore :=
  { needs_match_score := nm
    completeness_score := c
    practicality_score := p
    overall_score :=
      if ov ≠ 0 then ov else pyRound1 (nm * 0.5 + c * 0.3 + p * 0.2) }

/-- Recommendation reason (`RecommendationReason`). -/
structure RecommendationReason where
  factor : String
  description : String
  weight : ℚ
  score : ℚ
  deriving DecidableEq, Repr

/-- Recommendation option (`RecommendationOption`); the side-effecting
`option_id` UUID is not modelled. -/
structure RecommendationOption where
  ticket : Ticket
  score : ℚ
  rank : ℕ
  reasons : List RecommendationReason
  deriving DecidableEq, Repr

/-- Recommendation status enumeration (`RecommendationStatus`). -/
inductive RecommendationStatus where
  | pending | processing | completed | failed | refined
  deriving DecidableEq, Repr

/-- Reflection feedback record (`ReflectionFeedback`); the `reflection_id`
UUID is not modelled. -/
structure ReflectionFeedback where
  iteration : ℕ
  strengths : List String
  weaknesses : List String
  improvement_suggestions : List String
  adjusted_parameters : List (String × PyObj)
  deriving DecidableEq, Repr

/-- Recommendation record (`Recommendation`); UUID, timestamps and
processing-time metadata are not modelled. -/
structure Recommendation where
  user_id : Option String
  query_text : String
  status : RecommendationStatus
  options : List RecommendationOption
  scores : RecommendationScore
  reflection_iterations : ℕ
  reflection_history : List ReflectionFeedback
  deriving DecidableEq, Repr

/-- Embedding of `Recommendation.add_reflection`: append the feedback to the
history and increment the iteration counter. -/
def Recommendation.add_reflection (rec : Recommendation) (fb : ReflectionFeedback) :
    Recommendation :=
  { rec with
    reflection_history := rec.reflection_history ++ [fb]
    reflection_iterations := rec.reflection_iterations + 1 }

/-! ## Quality evaluator (`RecommendationEvaluator`, `src/core/evaluator.py`) -/

/-- Hour-of-day of a ticket departure (`datetime.hour` on the rational
minute timeline). -/
def Ticket.depHour (t : Ticket) : ℤ :=
  (⌊t.departure_time / 60⌋) % 24

/-- Maximum of a price list (Python `max`, used only on non-empty lists). -/
def qmax : List ℚ → ℚ
  | [] => 0
  | x :: xs => xs.foldl max x

/-- Minimum of a price list (Python `min`, used only on non-empty lists). -/
def qmin : List ℚ → ℚ
  | [] => 0
  | x :: xs => xs.foldl min x

/-- Rule-based needs-match dimension (`_evaluate_needs_match`, no LLM):
base 80, adjusted from the top-3 options, clamped to `[0, 100]`. -/
def evalNeedsMatch (rec : Recommendation) (needs : UserNeeds) : ℚ :=
  let top := rec.options.take 3
  let s : ℚ := 80
  let s := s +
    (if top.any (fun o => decide (o.ticket.transport_type ∈ needs.preferred_transport_types))
     then 5 else -10)
  let s := s +
    (if truthyOptList needs.preferred_seat_classes then
       if top.any (fun o => decide (o.ticket.seat_class ∈ needs.preferred_seat_classes.getD []))
       then 5 else -5
     else 0)
  let s := s +
    (if truthyOptQ needs.budget.max_price then
       if top.all (fun o => decide (o.ticket.price ≤ needs.budget.max_price.getD 0))
       then 10 else -15
     else 0)
  let s := s +
    (match needs.departure_time_range.start_time, needs.departure_time_range.end_time with
     | some st, some en =>
       if top.any (fun o => decide (st ≤ o.ticket.departure_time ∧ o.ticket.departure_time ≤ en))
       then 10 else -15
     | _, _ => 0)
  max 0 (min 100 s)

/-- Rule-based completeness dimension (`_evaluate_completeness`, no LLM):
base 75 with option-count, diversity, price-spread and time-spread bonuses,
clamped to `[0, 100]`; an empty option list returns 0 directly. -/
def evalCompleteness (rec : Recommendation) (_needs : UserNeeds) : ℚ :=
  let cnt := rec.options.length
  if cnt = 0 then 0
  else
    let s : ℚ := 75 +
      (if 5 ≤ cnt then 10 else if 3 ≤ cnt then 5 else if cnt = 1 then -10 else 0)
    let s := s + min 10 (((rec.options.map (fun o => o.ticket.transport_type)).dedup.length : ℚ) * 5)
    let s := s +
      (if 1 < cnt then
         let prices := rec.options.map (fun o => o.ticket.price)
         let range := qmax prices - qmin prices
         let avg := prices.sum / (prices.length : ℚ)
         if 0 < range ∧ range ≤ avg * 0.5 then 5 else 0
       else 0)
    let s := s +
      (if 3 ≤ (rec.options.map (fun o => o.ticket.depHour)).dedup.length then 5 else 0)
    max 0 (min 100 s)

/-- Rule-based practicality dimension (`_evaluate_practicality`, no LLM):
base 70 with availability, directness and duration-reasonableness
adjustments, clamped to `[0, 100]`. -/
def evalPracticality (rec : Recommendation) (needs : UserNeeds) : ℚ :=
  let cnt := rec.options.length
  let avail := rec.options.countP (fun o => decide (0 < o.ticket.available_seats))
  let s : ℚ := 70 +
    (if avail = 0 then -50 else (avail : ℚ) / (cnt : ℚ) * 10)
  let s := s +
    (if 0 < rec.options.countP (fun o => o.ticket.is_direct) then 10 else 0)
  let reasonable := rec.options.countP fun o =>
    if truthyOptZ needs.max_duration_minutes then
      decide (o.ticket.duration_minutes ≤ needs.max_duration_minutes.getD 0)
    else if o.ticket.transport_type = .flight then decide (o.ticket.duration_minutes ≤ 240)
    else if o.ticket.transport_type = .train then decide (o.ticket.duration_minutes ≤ 480)
    else false
  let s := s + (if 0 < reasonable then min 15 ((reasonable : ℚ) * 5) else 0)
  max 0 (min 100 s)

/-- Rule-based improvement-suggestion generation
(`_generate_improvement_suggestions`, no LLM).  Numbers inside suggestion
text are rendered by `toString` on the exact rational (Python formats the
float, for example `1000.0`); no claim inspects the digits. -/
def genImprovementSuggestions (rec : Recommendation) (needs : UserNeeds)
    (scores : RecommendationScore) : List String :=
  let s :=
    (if scores.needs_match_score < 60 then
       ["重点关注用户的核心需求，特别是交通方式和价格预算"] else []) ++
    (if scores.needs_match_score < 80 then
       (if truthyOptQ needs.budget.max_price then
          let m := needs.budget.max_price.getD 0
          if 0 < rec.options.countP (fun o => decide (m < o.ticket.price)) then
            ["提供更多符合用户预算(最高" ++ toString m ++ ")的选项"]
          else []
        else []) ++
       (match needs.departure_time_range.preferred_time with
        | some pt => ["更好地匹配用户的" ++ pt.value ++ "时间偏好"]
        | none => [])
     else []) ++
    (if scores.completeness_score < 70 then
       (if rec.options.length < 3 then
          ["增加更多样化的推荐选项，至少提供3个不同的选择"] else []) ++
       (if (rec.options.map (fun o => o.ticket.transport_type)).dedup.length <
           needs.preferred_transport_types.length then
          ["尝试覆盖用户偏好的所有交通方式"] else [])
     else []) ++
    (if scores.practicality_score < 80 then
       (if ((rec.options.countP (fun o => decide (0 < o.ticket.available_seats))) : ℚ) <
           (rec.options.length : ℚ) / 2 then
          ["提供更多可立即预订的选项"] else []) ++
       (if rec.options.countP (fun o => o.ticket.is_direct) = 0 ∧ 0 < rec.options.length then
          ["尝试提供一些直达选项，减少中转次数"] else [])
     else []) ++
    (if 80 ≤ scores.needs_match_score ∧ 80 ≤ scores.completeness_score ∧
        80 ≤ scores.practicality_score ∧ scores.overall_score < 90 then
       ["整体推荐质量良好，可以尝试提供一些特色服务或独特优势来进一步提升"] else [])
  if s.isEmpty then
    if 90 ≤ scores.overall_score then ["当前推荐已经非常优秀，可以适当增加一些个性化的细节"]
    else ["全面提升推荐方案的质量，确保更好地满足用户需求"]
  else s

/-- Abstract external judge: the four LLM-delegated calls the evaluator makes
when an `llm_client` is injected (`evaluate_needs_match`,
`evaluate_completeness`, `evaluate_practicality`,
`generate_improvement_suggestions`). -/
structure LLMJudge where
  needsMatch : Recommendation → UserNeeds → ℚ
  completeness : Recommendation → UserNeeds → ℚ
  practicality : Recommendation → UserNeeds → ℚ
  suggestions : Recommendation → UserNeeds → RecommendationScore → List String

/-- Embedding of `RecommendationEvaluator.evaluate`: the empty-option check
comes first and short-circuits with an all-zero score and a single
diagnostic; otherwise the three dimensions are scored (by the external judge
when one is injected, by the local rules otherwise), the overall score is
derived by the `RecommendationScore` validator, and suggestions are
generated. -/
def evaluatorEvaluate (llm : Option LLMJudge) (rec : Recommendation) (needs : UserNeeds) :
    RecommendationScore × List String :=
  if rec.options.isEmpty then
    (mkRecommendationScore 0 0 0 0, ["没有找到匹配的推荐选项"])
  else
    let nm := match llm with
      | some j => j.needsMatch rec needs
      | none => evalNeedsMatch rec needs
    let c := match llm with
      | some j => j.completeness rec needs
      | none => evalCompleteness rec needs
    let p := match llm with
      | some j => j.practicality rec needs
      | none => evalPracticality rec needs
    let scores := mkRecommendationScore nm c p 0
    let sugg := match llm with
      | some j => j.suggestions rec needs scores
      | none => genImprovementSuggestions rec needs scores
    (scores, sugg)

/-! ## LLM client score extraction (`LLMClient`, `src/utils/llm_client.py`) -/

/-- Word character in the sense of the regular expression `\b` boundaries
used by `_extract_score` (ASCII letters, digits and underscore; Python's
Unicode `\w` also covers other alphanumerics, which no settled input
exercises). -/
def isWordChar (c : Char) : Bool := c.isAlphanum || c = '_'

/-- Numeric value of a digit run. -/
def digitsVal (cs : List Char) : ℕ :=
  cs.foldl (fun acc c => 10 * acc + (c.toNat - 48)) 0

/-- Value of a fractional digit run. -/
def fracVal (cs : List Char) : ℚ := (digitsVal cs : ℚ) / (10 ^ cs.length)

/-- Attempted match of `\d{1,3}(?:\.\d+)?\b` at a position whose preceding
character is already known to be a word boundary and whose first character
is a digit.  A run of four or more digits can never satisfy the trailing
boundary (shortening the run leaves a digit right after the match), and a
fraction that is followed by a word character backtracks to the bare
integer part, whose trailing `.` is itself a boundary. -/
def matchNumberAt (cs : List Char) : Option ℚ :=
  let run := cs.takeWhile Char.isDigit
  let after := cs.dropWhile Char.isDigit
  if run.length = 0 ∨ 3 < run.length then none
  else
    match after with
    | [] => some (digitsVal run : ℚ)
    | '.' :: r2 =>
      let frac := r2.takeWhile Char.isDigit
      let after2 := r2.dropWhile Char.isDigit
      if !frac.isEmpty && (after2.isEmpty || !isWordChar (after2.headD ' ')) then
        some ((digitsVal run : ℚ) + fracVal frac)
      else
        some (digitsVal run : ℚ)
    | c :: _ => if isWordChar c then none else some (digitsVal run : ℚ)

/-- Leftmost match of `\b(\d{1,3}(?:\.\d+)?)\b` (the first element of
`re.findall` in `_extract_score`): scan the characters left to right,
trying a match at every word-boundary position that starts with a digit. -/
def findNumber : Option Char → List Char → Option ℚ
  | _, [] => none
  | prev, c :: rest =>
    let boundary := match prev with
      | none => true
      | some p => !isWordChar p
    if c.isDigit && boundary then
      match matchNumberAt (c :: rest) with
      | some v => some v
      | none => findNumber (some c) rest
    else findNumber (some c) rest

/-- The value of a Python float conversion: a finite rational, one of the
two infinities, or a NaN. -/
inductive PyFloat where
  | finite : ℚ → PyFloat
  | inf : PyFloat
  | neginf : PyFloat
  | nan : PyFloat
  deriving DecidableEq, Repr

/-- Continuation of a digit group after at least one digit: the PEP-515
pattern `(_? digit)*`, greedy, returning the digits with underscores
removed and the unconsumed remainder. -/
def digitGroupCont : List Char → List Char × List Char
  | '_' :: c :: rest =>
    if c.isDigit then
      let r := digitGroupCont rest
      (c :: r.1, r.2)
    else ([], '_' :: c :: rest)
  | c :: rest =>
    if c.isDigit then
      let r := digitGroupCont rest
      (c :: r.1, r.2)
    else ([], c :: rest)
  | [] => ([], [])

/-- A digit group of a Python float literal: `digit (_? digit)*`, greedy,
possibly empty, returning the digits with underscores removed and the
unconsumed remainder. -/
def digitGroup : List Char → List Char × List Char
  | c :: rest =>
    if c.isDigit then
      let r := digitGroupCont rest
      (c :: r.1, r.2)
    else ([], c :: rest)
  | [] => ([], [])

/-- The decimal part of Python's float grammar, after the optional sign:
integer digits, optional dot and fraction digits (at least one digit in
the mantissa), and an optional `e`/`E` exponent with its own optional sign
and mandatory digits; underscores are allowed between digits throughout.
The value is the exact rational; CPython rounds it to the nearest double
(saturating huge exponents to an infinity), which the clamp to `[0, 100]`
in `_extract_score` makes indistinguishable except for sub-double-precision
residues that no settled input exercises. -/
def parseDecimal (body : List Char) : Option ℚ :=
  let ipr := digitGroup body
  let fr : List Char × List Char :=
    match ipr.2 with
    | '.' :: r2 => digitGroup r2
    | _ => ([], ipr.2)
  if ipr.1.isEmpty && fr.1.isEmpty then none
  else
    let mant : ℚ := (digitsVal ipr.1 : ℚ) + fracVal fr.1
    match fr.2 with
    | [] => some mant
    | c :: r3 =>
      if c = 'e' || c = 'E' then
        let es : Bool × List Char :=
          match r3 with
          | '-' :: r4 => (true, r4)
          | '+' :: r4 => (false, r4)
          | _ => (false, r3)
        let er := digitGroup es.2
        if er.1.isEmpty || !er.2.isEmpty then none
        else
          let e : ℤ := if es.1 then -(digitsVal er.1 : ℤ) else (digitsVal er.1 : ℤ)
          some (mant * (10 : ℚ) ^ e)
      else none

/-- Python `float(s)` on an already-stripped string: an optional sign
followed by a case-insensitive `inf`/`infinity`/`nan` spelling or a decimal
literal with optional fraction, exponent and digit-group underscores.
Faithful to CPython's acceptance on ASCII input; `float()` additionally
accepts non-ASCII Unicode decimal digits, which is why the theorems that
rely on a failed parse restrict the response to ASCII. -/
def parseFloat (s : String) : Option PyFloat :=
  let cs := s.toList
  let sr : Bool × List Char :=
    match cs with
    | '-' :: r => (true, r)
    | '+' :: r => (false, r)
    | _ => (false, cs)
  let lower := sr.2.map Char.toLower
  if lower = ['i', 'n', 'f'] || lower = ['i', 'n', 'f', 'i', 'n', 'i', 't', 'y'] then
    some (if sr.1 then .neginf else .inf)
  else if lower = ['n', 'a', 'n'] then some .nan
  else
    match parseDecimal sr.2 with
    | some q => some (.finite (if sr.1 then -q else q))
    | none => none

/-- Python whitespace in the sense of `str.strip()` / `str.isspace()`:
the ASCII whitespace and separator controls plus the Unicode space
characters. -/
def pyIsSpace (c : Char) : Bool :=
  let n := c.toNat
  (0x09 ≤ n && n ≤ 0x0D) || (0x1C ≤ n && n ≤ 0x1F) || n = 0x20 || n = 0x85 ||
    n = 0xA0 || n = 0x1680 || (0x2000 ≤ n && n ≤ 0x200A) || n = 0x2028 ||
    n = 0x2029 || n = 0x202F || n = 0x205F || n = 0x3000

/-- Python `s.strip()`: drop leading and trailing whitespace. -/
def pyStrip (s : String) : String :=
  String.mk (((s.toList.dropWhile pyIsSpace).reverse.dropWhile pyIsSpace).reverse)

/-- The clamp `max(0, min(100, score))` of `_extract_score`, with CPython's
comparison semantics on non-finite values: `min(100, x)` keeps its first
argument unless `x < 100`, so `inf` and `nan` both clamp to 100, while
`-inf` clamps to 0. -/
def pyClamp : PyFloat → ℚ
  | .finite q => max 0 (min 100 q)
  | .inf => 100
  | .neginf => 0
  | .nan => 100

/-- Embedding of `LLMClient._extract_score`: try to parse the stripped
response as a float; failing that, take the first `\b\d{1,3}(\.\d+)?\b`
match in the raw response; failing that, fall back to the default 70.0.
Every successfully extracted score is clamped to `[0, 100]`.  The function
is total: no parse failure escapes as an exception. -/
def extractScore (response : String) : ℚ :=
  match parseFloat (pyStrip response) with
  | some f => pyClamp f
  | none =>
    match findNumber none response.toList with
    | some sc => max 0 (min 100 sc)
    | none => 70

/-- Embedding of `LLMClient.evaluate_needs_match`: the underlying chat call
either raises (modelled by `Except.error`), in which case the surrounding
`try` returns the default 70.0, or produces a response text handed to
`_extract_score`.  `evaluate_completeness` and `evaluate_practicality` have
the identical structure. -/
def evaluateNeedsMatchLLM (callResult : Except String String) : ℚ :=
  match callResult with
  | .error _ => 70
  | .ok response => extractScore response

/-! ## Refinement controller (`ReflectionEngine`, `src/core/reflection_engine.py`) -/

/-- Python `pat in s` substring test. -/
def containsSub (s pat : String) : Bool := 1 < (s.splitOn pat).length

/-- Embedding of `ReflectionEngine._extract_strengths_weaknesses`: strengths
from dimension scores of at least 85, weaknesses rewritten from the
improvement suggestions that carry the marker words. -/
def extractStrengthsWeaknesses (scores : RecommendationScore)
    (suggestions : List String) : List String × List String :=
  let strengths :=
    (if 85 ≤ scores.needs_match_score then ["推荐方案很好地匹配了用户的核心需求"] else []) ++
    (if 85 ≤ scores.completeness_score then ["提供了全面且多样化的选择"] else []) ++
    (if 85 ≤ scores.practicality_score then ["推荐具有很高的实用性和便利性"] else [])
  let weaknesses := suggestions.filterMap fun sug =>
    if sug.startsWith "改进" || containsSub sug "应该" || containsSub sug "需要" then
      some (((sug.replace "改进" "").replace "应该" "缺乏").replace "需要" "缺乏")
    else none
  (strengths, weaknesses)

/-- Embedding of `ReflectionEngine.create_reflection_feedback`. -/
def mkReflectionFeedback (iteration : ℕ) (scores : RecommendationScore)
    (suggestions : List String) (params : List (String × PyObj)) : ReflectionFeedback :=
  let sw := extractStrengthsWeaknesses scores suggestions
  { iteration := iteration
    strengths := sw.1
    weaknesses := sw.2
    improvement_suggestions := suggestions
    adjusted_parameters := params }

/-- Embedding of `ReflectionEngine.generate_recommendations`: rank the
candidates, keep at most the first 10 and turn them into options with ranks
`idx + 1`; the fresh recommendation starts with status `processing`,
all-zero scores and no reflection history. -/
def generateRecommendations (user_needs : UserNeeds) (tickets : List Ticket)
    (query_text : String) : Recommendation :=
  let ranked := rankTickets tickets user_needs
  let options := (ranked.take 10).enum.map fun p =>
    { ticket := p.2.ticket
      score := p.2.total
      rank := p.1 + 1
      reasons := p.2.reasons.map fun r =>
        { factor := r.factor
          description := r.description
          weight := r.weight
          score := r.score } }
  { user_id := user_needs.user_id
    query_text := query_text
    status := .processing
    options := options
    scores := mkRecommendationScore 0 0 0 0
    reflection_iterations := 0
    reflection_history := [] }

/-- The collaborators `ReflectionEngine` receives by dependency injection,
as deterministic functions: `extractNeeds` is `llm_client.extract_needs`,
`fetchTickets` is `data_processor.fetch_matching_tickets` (whose mock data
generation is randomised and therefore abstract), `evalRec` is
`evaluator.evaluate` (instantiable with `evaluatorEvaluate llm`),
`reflectAdjust` is `llm_client.reflect_and_adjust`, and `adjustNeeds` is
`apply_improvements` acting on the typed needs state — its dynamic
attribute-path semantics is embedded as `applyImprovements` over the
attribute model `PyObj`, and the loop below never inspects the needs state,
so every theorem about the loop holds for that instantiation in
particular. -/
structure Env where
  extractNeeds : String → UserNeeds
  fetchTickets : UserNeeds → List Ticket
  evalRec : Recommendation → UserNeeds → RecommendationScore × List String
  reflectAdjust : Recommendation → UserNeeds → RecommendationScore → List String →
    List (String × PyObj)
  adjustNeeds : UserNeeds → List (String × PyObj) → UserNeeds

/-- Embedding of the `for iteration in range(self.max_iterations)` reflect
loop in `ReflectionEngine.recommend` (steps 4.1 to 4.6): evaluate the
current recommendation; stop with status `completed` when the overall score
reaches the threshold; otherwise reflect, adjust the needs, attach feedback
to the current (about to be superseded) recommendation, and rebuild a fresh
recommendation with status `refined` from the adjusted needs.  `fuel` is
the number of remaining iterations and `iter` the zero-based index of the
current one; the second component of the result counts the reflect/rebuild
cycles performed. -/
def reflectLoop (env : Env) (threshold : ℚ) (query : String) :
    ℕ → ℕ → UserNeeds → Recommendation → Recommendation × ℕ
  | 0, _, _, rec => (rec, 0)
  | fuel + 1, iter, needs, rec =>
    let ev := env.evalRec rec needs
    let rec1 := { rec with scores := ev.1 }
    if threshold ≤ ev.1.overall_score then
      ({ rec1 with status := .completed }, 0)
    else
      let params := env.reflectAdjust rec1 needs ev.1 ev.2
      let needs1 := env.adjustNeeds needs params
      let fb := mkReflectionFeedback (iter + 1) ev.1 ev.2 params
      let _superseded := rec1.add_reflection fb
      let tickets := env.fetchTickets needs1
      let rec2 := { generateRecommendations needs1 tickets query with status := .refined }
      let next := reflectLoop env threshold query fuel (iter + 1) needs1 rec2
      (next.1, next.2 + 1)

/-- Embedding of `ReflectionEngine.recommend`: extract needs, fetch
candidates, short-circuit with a `failed` recommendation when there are
none, otherwise build the initial recommendation, run the reflect loop, and
finalize any non-`completed` status to `completed`.  The second component
counts the reflect/rebuild cycles performed.  The `except` branch for
unexpected internal faults is not modelled: all collaborators are total
functions here. -/
def recommend (env : Env) (max_iterations : ℕ) (score_threshold : ℚ)
    (conversation_text : String) : Recommendation × ℕ :=
  let user_needs := env.extractNeeds conversation_text
  let candidates := env.fetchTickets user_needs
  if candidates.isEmpty then
    ({ user_id := user_needs.user_id
       query_text := conversation_text
       status := .failed
       options := []
       scores := mkRecommendationScore 0 0 0 0
       reflection_iterations := 0
       reflection_history := [] }, 0)
  else
    let rec0 := generateRecommendations user_needs candidates conversation_text
    let res := reflectLoop env score_threshold conversation_text max_iterations 0
      user_needs rec0
    (if res.1.status ≠ .completed then { res.1 with status := .completed } else res.1,
     res.2)

/-! ## Shared concrete instances used by witnesses and counterexamples -/

/-- A simple Beijing-to-Shanghai needs value with a 1000 budget cap and a
morning preference, matching the spec scenarios. -/
def sampleNeeds : UserNeeds :=
  { user_id := none
    departure_city := "北京"
    arrival_city := "上海"
    departure_time_range := ⟨none, none, none, some .morning⟩
    return_time_range := none
    preferred_transport_types := [.train]
    preferred_seat_classes := none
    budget := ⟨none, some 1000, none, some .any⟩
    priorities := [.price]
    max_transfers := none
    max_duration_minutes := none }

/-- A concrete train ticket template with the given id, price and seat
count. -/
def sampleTrain (i : String) (price : ℚ) (seats : ℤ) : Ticket :=
  { id := i
    transport_type := .train
    departure_city := "北京"
    arrival_city := "上海"
    departure_time := 480
    arrival_time := 780
    price := price
    seat_class := .highSpeedSecond
    available_seats := seats
    company := "高铁"
    transport_number := "G1"
    departure_station := "北京站"
    arrival_station := "上海站"
    duration_minutes := 300
    transfer_info := none }

/-! ## Claim theorems -/

/-- Helper: the reflect loop performs at most `fuel` reflect/rebuild
cycles. -/
theorem reflectLoop_count_le (env : Env) (threshold : ℚ) (query : String) :
    ∀ fuel iter needs rec, (reflectLoop env threshold query fuel iter needs rec).2 ≤ fuel := by
  intro fuel
  induction fuel with
  | zero => intro iter needs rec; simp [reflectLoop]
  | succ n ih =>
    intro iter needs rec
    simp only [reflectLoop]
    split
    · simp
    · simpa using ih (iter + 1) _ _

/-- C1: for every recommendation request, `recommend` performs at most
`max_iterations` reflect/rebuild cycles: the count of reflect invocations
(each paired with a rebuild) returned alongside the recommendation never
exceeds the configured bound, for every environment of collaborators. -/
theorem c1_loop_bounded_by_max_iterations (env : Env) (max_iterations : ℕ)
    (score_threshold : ℚ) (conversation_text : String) :
    (recommend env max_iterations score_threshold conversation_text).2 ≤ max_iterations := by
  simp only [recommend]
  split
  · simp
  · exact reflectLoop_count_le env score_threshold conversation_text max_iterations 0 _ _

/-- C2: at any iteration of the refinement loop (the first included), as
soon as the evaluated overall score reaches the threshold, the loop stops
with the recommendation's status set to `completed`, performing zero
further reflect or rebuild cycles in the request. -/
theorem c2_threshold_stops_immediately (env : Env) (threshold : ℚ) (query : String)
    (fuel iter : ℕ) (needs : UserNeeds) (rec : Recommendation)
    (h : threshold ≤ (env.evalRec rec needs).1.overall_score) :
    reflectLoop env threshold query (fuel + 1) iter needs rec =
      ({ rec with scores := (env.evalRec rec needs).1, status := .completed }, 0) := by
  simp [reflectLoop, h]

/-- Environment whose evaluator immediately reports a 90 overall score,
used to witness the stop rule. -/
def envStop : Env :=
  { extractNeeds := fun _ => sampleNeeds
    fetchTickets := fun _ => [sampleTrain "a" 600 10]
    evalRec := fun _ _ =>
      ({ needs_match_score := 90, completeness_score := 90,
         practicality_score := 90, overall_score := 90 }, [])
    reflectAdjust := fun _ _ _ _ => []
    adjustNeeds := fun n _ => n }

/-- A recommendation as freshly generated for the witness environment. -/
def recStop : Recommendation :=
  generateRecommendations sampleNeeds [sampleTrain "a" 600 10] "查询"

/-- Witness for C2 at a concrete environment: threshold 85 is reached on the
very first iteration, the loop returns at once with status `completed` and
zero reflect/rebuild cycles. -/
theorem c2_threshold_stops_immediately_witness :
    (85 : ℚ) ≤ ((envStop.evalRec recStop sampleNeeds).1.overall_score) ∧
    reflectLoop envStop 85 "查询" 3 0 sampleNeeds recStop =
      ({ recStop with
           scores := (envStop.evalRec recStop sampleNeeds).1
           status := .completed }, 0) :=
  ⟨by norm_num [envStop],
   c2_threshold_stops_immediately envStop 85 "查询" 2 0 sampleNeeds recStop
     (by norm_num [envStop])⟩

/-- C8: for every needs value and every recommendation whose option list is
empty, the evaluator — with or without an external judge injected — returns
all three dimension scores 0 with overall score 0, together with exactly the
single directive that no matching options were found; the check precedes any
per-option or judge analysis, as the result does not depend on the judge at
all. -/
theorem c8_empty_options_single_directive (llm : Option LLMJudge)
    (rec : Recommendation) (needs : UserNeeds) (h : rec.options = []) :
    (evaluatorEvaluate llm rec needs).1 = ⟨0, 0, 0, 0⟩ ∧
    (evaluatorEvaluate llm rec needs).2 = ["没有找到匹配的推荐选项"] := by
  refine ⟨?_, ?_⟩
  · simp only [evaluatorEvaluate, h, List.isEmpty_nil, if_true, mkRecommendationScore]
    norm_num [pyRound1]
  · simp [evaluatorEvaluate, h]

/-- A recommendation with an empty option list. -/
def emptyRec : Recommendation :=
  { user_id := none
    query_text := "查询"
    status := .processing
    options := []
    scores := mkRecommendationScore 0 0 0 0
    reflection_iterations := 0
    reflection_history := [] }

/-- Witness for C8 at a concrete empty recommendation (judge absent). -/
theorem c8_empty_options_single_directive_witness :
    emptyRec.options = [] ∧
    (evaluatorEvaluate none emptyRec sampleNeeds).1 = ⟨0, 0, 0, 0⟩ ∧
    (evaluatorEvaluate none emptyRec sampleNeeds).2 = ["没有找到匹配的推荐选项"] :=
  ⟨rfl, (c8_empty_options_single_directive none emptyRec sampleNeeds rfl).1,
    (c8_empty_options_single_directive none emptyRec sampleNeeds rfl).2⟩

/-- Helper: mapping a projection of the element over an enumerated list
forgets the indices. -/
theorem enumFrom_map_snd_proj {α β : Type} (g : α → β) :
    ∀ (n : ℕ) (l : List α), (List.enumFrom n l).map (fun p => g p.2) = l.map g := by
  intro n l
  induction l generalizing n with
  | nil => simp
  | cons x xs ih => simp [List.enumFrom, ih]

/-- Helper: the successor indices of an enumerated list form the range
starting at one past the enumeration base. -/
theorem enumFrom_map_rank {α : Type} :
    ∀ (n : ℕ) (l : List α),
      (List.enumFrom n l).map (fun p => p.1 + 1) = List.range' (n + 1) l.length := by
  intro n l
  induction l generalizing n with
  | nil => simp
  | cons x xs ih => simp [List.enumFrom, List.range', ih]

/-- C10: every recommendation built by `generate_recommendations` has at
most 10 options, the options are exactly the first 10 entries of the ranked
(descending-score) candidate list with their tickets and total scores, and
the rank values are the consecutive integers `1 .. n` in ranked order. -/
theorem c10_top10_consecutive_ranks (user_needs : UserNeeds) (tickets : List Ticket)
    (query_text : String) :
    (generateRecommendations user_needs tickets query_text).options.length ≤ 10 ∧
    (generateRecommendations user_needs tickets query_text).options.map
        (fun o => o.ticket) =
      ((rankTickets tickets user_needs).take 10).map (fun st => st.ticket) ∧
    (generateRecommendations user_needs tickets query_text).options.map
        (fun o => o.score) =
      ((rankTickets tickets user_needs).take 10).map (fun st => st.total) ∧
    (generateRecommendations user_needs tickets query_text).options.map
        (fun o => o.rank) =
      List.range' 1 (generateRecommendations user_needs tickets query_text).options.length := by
  refine ⟨?_, ?_, ?_, ?_⟩
  · simp [generateRecommendations, List.length_take]
  · simpa [generateRecommendations, List.map_map, List.enum, Function.comp] using
      enumFrom_map_snd_proj (fun st : ScoredTicket => st.ticket) 0
        ((rankTickets tickets user_needs).take 10)
  · simpa [generateRecommendations, List.map_map, List.enum, Function.comp] using
      enumFrom_map_snd_proj (fun st : ScoredTicket => st.total) 0
        ((rankTickets tickets user_needs).take 10)
  · simpa [generateRecommendations, List.map_map, List.enum, Function.comp] using
      enumFrom_map_rank 0 ((rankTickets tickets user_needs).take 10)

/-- C6: for every candidate list and needs, `rank_tickets` returns the
scored tickets in weakly descending total-score order, the output is a
permutation of the scored input, and the sort is stable: whenever a pair
appears in input order with the first total at least the second — which in
particular covers two tickets with equal total scores — the pair appears in
the same relative order in the output. -/
theorem c6_ranking_sorted_and_stable (tickets : List Ticket) (needs : UserNeeds) :
    List.Sorted scoreGE (rankTickets tickets needs) ∧
    List.Perm (rankTickets tickets needs) (tickets.map (scoreTicket needs)) ∧
    ∀ a b : ScoredTicket, b.total ≤ a.total →
      List.Sublist [a, b] (tickets.map (scoreTicket needs)) →
      List.Sublist [a, b] (rankTickets tickets needs) :=
  ⟨List.sorted_insertionSort scoreGE _,
   List.perm_insertionSort scoreGE _,
   fun _ _ hr hs => List.pair_sublist_insertionSort hr hs⟩

/-- Witness for C6: two equal-total tickets differing only in their id keep
their input order in the ranked output. -/
theorem c6_ranking_sorted_and_stable_witness :
    (scoreTicket sampleNeeds (sampleTrain "b" 600 10)).total ≤
      (scoreTicket sampleNeeds (sampleTrain "a" 600 10)).total ∧
    List.Sublist
      [scoreTicket sampleNeeds (sampleTrain "a" 600 10),
       scoreTicket sampleNeeds (sampleTrain "b" 600 10)]
      ([sampleTrain "a" 600 10, sampleTrain "b" 600 10].map (scoreTicket sampleNeeds)) ∧
    List.Sublist
      [scoreTicket sampleNeeds (sampleTrain "a" 600 10),
       scoreTicket sampleNeeds (sampleTrain "b" 600 10)]
      (rankTickets [sampleTrain "a" 600 10, sampleTrain "b" 600 10] sampleNeeds) :=
  ⟨le_refl _, by simp,
   (c6_ranking_sorted_and_stable [sampleTrain "a" 600 10, sampleTrain "b" 600 10]
       sampleNeeds).2.2 _ _ (le_refl _) (by simp)⟩

/-- Helper: a nonnegative penalty subtracted from 100 and floored at 0 lands
in `[0, 100]`. -/
theorem clamp_penalty_bounds {pen : ℚ} (hpen : 0 ≤ pen) :
    0 ≤ max 0 (100 - pen) ∧ max 0 (100 - pen) ≤ 100 :=
  ⟨le_max_left 0 _, max_le (by norm_num) (by linarith)⟩

/-- Helper: the transport-mode factor is 100 or 50. -/
theorem transportScore_bounds (needs : UserNeeds) (t : Ticket) :
    0 ≤ transportScore needs t ∧ transportScore needs t ≤ 100 := by
  unfold transportScore
  split <;> norm_num

/-- Helper: the seat-class factor is 100 or 60. -/
theorem seatScore_bounds (needs : UserNeeds) (t : Ticket) :
    0 ≤ seatScore needs t ∧ seatScore needs t ≤ 100 := by
  unfold seatScore
  split
  · cases h : needs.preferred_seat_classes with
    | none => norm_num
    | some l =>
      by_cases hm : t.seat_class ∈ l <;> simp [hm] <;> norm_num
  · norm_num

/-- Helper: the price factor lands in `[0, 100]` whenever the set budget
bounds are nonnegative. -/
theorem priceScore_bounds (needs : UserNeeds) (t : Ticket)
    (hmax : ∀ m, needs.budget.max_price = some m → 0 ≤ m)
    (hmin : ∀ m, needs.budget.min_price = some m → 0 ≤ m) :
    0 ≤ priceScore needs t ∧ priceScore needs t ≤ 100 := by
  unfold priceScore
  rcases hM : needs.budget.max_price with _ | m1 <;>
    rcases hN : needs.budget.min_price with _ | m2 <;>
    simp only [hM, hN]
  · norm_num
  · split_ifs with h
    · have hm0 : 0 < m2 := lt_of_le_of_ne (hmin m2 hN) (Ne.symm h.1)
      exact clamp_penalty_bounds
        (mul_nonneg (div_nonneg (by linarith [h.2]) hm0.le) (by norm_num))
    · norm_num
  · split_ifs with h
    · have hm0 : 0 < m1 := lt_of_le_of_ne (hmax m1 hM) (Ne.symm h.1)
      exact clamp_penalty_bounds
        (mul_nonneg (div_nonneg (by linarith [h.2]) hm0.le) (by norm_num))
    · norm_num
  · split_ifs with h1 h2
    · have hm0 : 0 < m2 := lt_of_le_of_ne (hmin m2 hN) (Ne.symm h1.1)
      exact clamp_penalty_bounds
        (mul_nonneg (div_nonneg (by linarith [h1.2]) hm0.le) (by norm_num))
    · have hm0 : 0 < m1 := lt_of_le_of_ne (hmax m1 hM) (Ne.symm h2.1)
      exact clamp_penalty_bounds
        (mul_nonneg (div_nonneg (by linarith [h2.2]) hm0.le) (by norm_num))
    · norm_num

/-- Helper: the departure-time factor lands in `[0, 100]`. -/
theorem timeScore_bounds (needs : UserNeeds) (t : Ticket) :
    0 ≤ timeScore needs t ∧ timeScore needs t ≤ 100 := by
  unfold timeScore
  cases hS : needs.departure_time_range.start_time with
  | none => norm_num
  | some st =>
    cases hE : needs.departure_time_range.end_time with
    | none => norm_num
    | some en =>
      simp only []
      split
      · rename_i h
        exact clamp_penalty_bounds
          (mul_nonneg (div_nonneg (by linarith) (by norm_num)) (by norm_num))
      · split
        · rename_i h1 h2
          exact clamp_penalty_bounds
            (mul_nonneg (div_nonneg (by linarith) (by norm_num)) (by norm_num))
        · norm_num

/-- Helper: the duration factor lands in `[0, 100]`. -/
theorem durationScore_bounds (needs : UserNeeds) (t : Ticket) :
    0 ≤ durationScore needs t ∧ durationScore needs t ≤ 100 := by
  unfold durationScore
  cases hD : needs.max_duration_minutes with
  | none => norm_num
  | some d =>
    simp only []
    split
    · rename_i h
      have : (d : ℚ) < (t.duration_minutes : ℚ) := by exact_mod_cast h.2
      exact clamp_penalty_bounds
        (mul_nonneg (div_nonneg (by linarith) (by norm_num)) (by norm_num))
    · norm_num

/-- Helper: the availability factor lands in `[0, 100]`. -/
theorem availabilityScore_bounds (t : Ticket) :
    0 ≤ availabilityScore t ∧ availabilityScore t ≤ 100 := by
  unfold availabilityScore
  split
  · rename_i h
    have : (0 : ℚ) ≤ (t.available_seats : ℚ) := by exact_mod_cast h.le
    exact ⟨le_min (by norm_num) (by linarith), min_le_left _ _⟩
  · norm_num

/-- C5 (amended): for every ticket and every needs value whose explicitly
set budget bounds are nonnegative, each of the six factor scores produced by
`rank_tickets` and the weighted total lie in `[0, 100]`.  (The original
claim, quantified over all needs, fails for negative budget bounds; see the
counterexample.) -/
theorem c5_scores_in_range_amended (needs : UserNeeds) (t : Ticket)
    (hmax : ∀ m, needs.budget.max_price = some m → 0 ≤ m)
    (hmin : ∀ m, needs.budget.min_price = some m → 0 ≤ m) :
    (∀ r ∈ (scoreTicket needs t).reasons, 0 ≤ r.score ∧ r.score ≤ 100) ∧
    0 ≤ (scoreTicket needs t).total ∧ (scoreTicket needs t).total ≤ 100 := by
  obtain ⟨h1a, h1b⟩ := transportScore_bounds needs t
  obtain ⟨h2a, h2b⟩ := seatScore_bounds needs t
  obtain ⟨h3a, h3b⟩ := priceScore_bounds needs t hmax hmin
  obtain ⟨h4a, h4b⟩ := timeScore_bounds needs t
  obtain ⟨h5a, h5b⟩ := durationScore_bounds needs t
  obtain ⟨h6a, h6b⟩ := availabilityScore_bounds t
  refine ⟨?_, ?_, ?_⟩
  · intro r hr
    simp only [scoreTicket, factorReasons, List.mem_cons, List.not_mem_nil, or_false] at hr
    rcases hr with h | h | h | h | h | h <;> subst h <;> exact ⟨by assumption, by assumption⟩
  · simp only [scoreTicket, factorReasons, List.foldl_cons, List.foldl_nil]
    linarith
  · simp only [scoreTicket, factorReasons, List.foldl_cons, List.foldl_nil]
    linarith

/-- Needs value with a negative budget ceiling, which the pydantic model
admits (`max_price` is an unconstrained optional float). -/
def badNeeds : UserNeeds :=
  { sampleNeeds with budget := ⟨none, some (-10), none, some .any⟩ }

/-- The ticket exhibiting the failure of the original C5 claim. -/
def badTicket : Ticket := sampleTrain "x" 100 10

/-- C5 counterexample: with a (model-admissible) negative budget ceiling of
-10 and a ticket priced 100, the price factor evaluates to 1200 and the
weighted total to 320, both far outside `[0, 100]`, so the claim as stated
— for every ticket and every needs — is false. -/
theorem c5_scores_in_range_counterexample :
    priceScore badNeeds badTicket = 1200 ∧
    ¬ (priceScore badNeeds badTicket ≤ 100) ∧
    (scoreTicket badNeeds badTicket).reasons.map (fun r => r.score) =
      [100, 100, 1200, 100, 100, 100] ∧
    (scoreTicket badNeeds badTicket).total = 320 ∧
    ¬ ((scoreTicket badNeeds badTicket).total ≤ 100) := by
  refine ⟨?_, ?_, ?_, ?_, ?_⟩ <;>
    norm_num [scoreTicket, factorReasons, priceScore, transportScore, seatScore,
      timeScore, durationScore, availabilityScore, truthyOptList, badNeeds, badTicket,
      sampleNeeds, sampleTrain]

/-- Witness for the amended C5 at a concrete in-range budget and ticket. -/
theorem c5_scores_in_range_amended_witness :
    (∀ m : ℚ, sampleNeeds.budget.max_price = some m → 0 ≤ m) ∧
    (∀ m : ℚ, sampleNeeds.budget.min_price = some m → 0 ≤ m) ∧
    ((∀ r ∈ (scoreTicket sampleNeeds (sampleTrain "a" 600 10)).reasons,
        0 ≤ r.score ∧ r.score ≤ 100) ∧
     0 ≤ (scoreTicket sampleNeeds (sampleTrain "a" 600 10)).total ∧
     (scoreTicket sampleNeeds (sampleTrain "a" 600 10)).total ≤ 100) :=
  ⟨fun m hm => by
      have hm' : m = 1000 := by simpa [sampleNeeds] using hm.symm
      rw [hm']; norm_num,
   fun m hm => by simp [sampleNeeds] at hm,
   c5_scores_in_range_amended sampleNeeds (sampleTrain "a" 600 10)
     (fun m hm => by
       have hm' : m = 1000 := by simpa [sampleNeeds] using hm.symm
       rw [hm']; norm_num)
     (fun m hm => by simp [sampleNeeds] at hm)⟩

/-- The five candidate train tickets of the C7 scenario: prices
`[600, 900, 1200, 1500, 800]` paired with seat counts `[10, 0, 5, 20, 3]`. -/
def tickets7 : List Ticket :=
  [sampleTrain "t1" 600 10, sampleTrain "t2" 900 0, sampleTrain "t3" 1200 5,
   sampleTrain "t4" 1500 20, sampleTrain "t5" 800 3]

set_option maxHeartbeats 1000000 in
/-- C7 counterexample: for the scenario needs and tickets, the ranked price
order is `[600, 1500, 800, 1200, 900]` — the 1500-priced, 20-seat ticket
(total 90) ranks above both the 800-priced, 3-seat ticket (total 89.5) and
the 900-priced, 0-seat ticket (total 85), because the availability factor
outweighs the price penalty.  The price pair `[1500, 900]` occurring in this
order in the ranked output refutes the claim that the tickets priced 1200
and 1500 rank below every ticket priced at most 1000. -/
theorem c7_scenario_counterexample :
    (rankTickets tickets7 sampleNeeds).map (fun st => st.ticket.price) =
      [600, 1500, 800, 1200, 900] ∧
    List.Sublist [(1500 : ℚ), 900]
      ((rankTickets tickets7 sampleNeeds).map (fun st => st.ticket.price)) ∧
    (1000 : ℚ) < 1500 ∧ (900 : ℚ) ≤ 1000 := by
  have hmap : (rankTickets tickets7 sampleNeeds).map (fun st => st.ticket.price) =
      [600, 1500, 800, 1200, 900] := by
    norm_num [rankTickets, List.insertionSort, List.orderedInsert, scoreGE,
      scoreTicket, factorReasons, transportScore, seatScore, priceScore,
      timeScore, durationScore, availabilityScore, truthyOptList,
      sampleNeeds, sampleTrain, tickets7]
  refine ⟨hmap, ?_, by norm_num, by norm_num⟩
  rw [hmap]
  exact .cons _ (.cons₂ _ (.cons _ (.cons _ (.cons₂ _ .slnil))))

set_option maxHeartbeats 1000000 in
/-- C7 (amended): for the scenario needs and tickets, the tickets priced
1200 and 1500 receive price factor scores 80 and 50, strictly below the
price factor 100 of every ticket priced at most 1000, and the 0-seat
ticket's availability factor score is 0; the total ranking, however, is
`[600, 1500, 800, 1200, 900]` with totals `[100, 90, 89.5, 88.5, 85]`,
since a strong availability factor can outweigh the price penalty. -/
theorem c7_scenario_amended :
    (rankTickets tickets7 sampleNeeds).map (fun st => (st.ticket.price, st.total)) =
      [(600, 100), (1500, 90), (800, 179/2), (1200, 177/2), (900, 85)] ∧
    priceScore sampleNeeds (sampleTrain "t3" 1200 5) = 80 ∧
    priceScore sampleNeeds (sampleTrain "t4" 1500 20) = 50 ∧
    priceScore sampleNeeds (sampleTrain "t1" 600 10) = 100 ∧
    priceScore sampleNeeds (sampleTrain "t2" 900 0) = 100 ∧
    priceScore sampleNeeds (sampleTrain "t5" 800 3) = 100 ∧
    availabilityScore (sampleTrain "t2" 900 0) = 0 := by
  refine ⟨?_, ?_, ?_, ?_, ?_, ?_, ?_⟩ <;>
    norm_num [rankTickets, List.insertionSort, List.orderedInsert, scoreGE,
      scoreTicket, factorReasons, transportScore, seatScore, priceScore,
      timeScore, durationScore, availabilityScore, truthyOptList,
      sampleNeeds, sampleTrain, tickets7]

/-- C3 counterexample: on a response that cannot be parsed into a valid
score (no float literal, no embedded number), `evaluate_needs_match`
returns the fixed default 70.0 — not the judgment (score 30,
is-sufficient=false, one parse-failure directive) the claim describes; no
such 30-score default judgment exists anywhere in the code. -/
theorem c3_parse_failure_counterexample :
    evaluateNeedsMatchLLM (.ok "not a number") = 70 ∧
    evaluateNeedsMatchLLM (.ok "not a number") ≠ 30 := by
  exact ⟨by decide, by decide⟩

/-- C3 (amended): whenever the external judge's response cannot be parsed
into a valid score structure — the stripped response is not a float literal
(exponent, underscore and `inf`/`nan` forms included) and the raw response
contains no `\b\d{1,3}(\.\d+)?\b` number — the client substitutes the
fixed default score 70.0 for that dimension, and an exception raised by the
underlying call likewise yields 70.0; in neither case does a parse
exception propagate to the control loop (the embedding is a total
function), and no is-sufficient flag or parse-failure directive is
produced.  The response is restricted to ASCII because CPython's `float()`
and the regular-expression classes `\d`/`\w` additionally accept non-ASCII
Unicode digits and word characters; on ASCII they coincide with
`parseFloat` and `findNumber`. -/
theorem c3_parse_failure_default_amended (response : String)
    (hascii : response.toList.all (fun c => c.toNat < 128) = true)
    (hfloat : parseFloat (pyStrip response) = none)
    (hregex : findNumber none response.toList = none) :
    evaluateNeedsMatchLLM (.ok response) = 70 ∧
    ∀ e : String, evaluateNeedsMatchLLM (.error e) = 70 := by
  constructor
  · simp only [String.toList] at hregex
    simp [evaluateNeedsMatchLLM, extractScore, hfloat, hregex]
  · intro e; rfl

/-- Witness for the amended C3 at the concrete unparsable response
`"abc"`. -/
theorem c3_parse_failure_default_amended_witness :
    "abc".toList.all (fun c => c.toNat < 128) = true ∧
    parseFloat (pyStrip "abc") = none ∧
    findNumber none "abc".toList = none ∧
    (evaluateNeedsMatchLLM (.ok "abc") = 70 ∧
     ∀ e : String, evaluateNeedsMatchLLM (.error e) = 70) :=
  ⟨by decide, by decide, by decide,
   c3_parse_failure_default_amended "abc" (by decide) (by decide) (by decide)⟩

/-- The object at which the intermediate-segment walk of `applyKey` stops,
together with whether it stopped early (the `break`: some intermediate
segment was not an attribute of the object reached so far). -/
def walkStop (o : PyObj) : List String → PyObj × Bool
  | [] => (o, false)
  | p :: ps =>
    match o.getattr p with
    | some child => walkStop child ps
    | none => (o, true)

/-- Helper: writing back the value an attribute already holds leaves the
object unchanged. -/
theorem setattr_getattr_self (o : PyObj) (p : String) (child : PyObj)
    (h : o.getattr p = some child) : o.setattr p child = o := by
  induction o with
  | leaf l => simp [PyObj.getattr] at h
  | anil => simp [PyObj.getattr] at h
  | acons n v rest ihv ihr =>
    by_cases hn : n = p
    · simp only [PyObj.getattr, hn, if_true] at h
      simp [PyObj.setattr, hn, Option.some.inj h]
    · simp only [PyObj.getattr, hn, if_false] at h
      simp [PyObj.setattr, hn, ihr h]

/-- Helper: when the intermediate walk of `applyKey` breaks and the final
segment is not an attribute of the object where it stopped, the key is a
no-op. -/
theorem applyKey_noop (ints : List String) (o : PyObj) (last : String) (v : PyObj)
    (hb : (walkStop o ints).2 = true)
    (hl : ((walkStop o ints).1).hasattr last = false) :
    applyKey o ints last v = o := by
  induction ints generalizing o with
  | nil => simp [walkStop] at hb
  | cons p ps ih =>
    cases h : o.getattr p with
    | some child =>
      have hb' : (walkStop child ps).2 = true := by
        simpa [walkStop, h] using hb
      have hl' : ((walkStop child ps).1).hasattr last = false := by
        simpa [walkStop, h] using hl
      calc applyKey o (p :: ps) last v = o.setattr p (applyKey child ps last v) := by
              simp [applyKey, h]
        _ = o.setattr p child := by rw [ih child hb' hl']
        _ = o := setattr_getattr_self o p child h
    | none =>
      have hl' : o.hasattr last = false := by simpa [walkStop, h] using hl
      simp [applyKey, h, hl']

/-- C9 (amended): the adjustment application is a pure function of the
(copied) needs object, so the original is never modified; for keys whose
dotted segments are declared pydantic field names — the domain on which
the data-field model coincides with Python's attribute surface, see
`declaredFieldNames` — a key whose path references a non-existent
intermediate segment stops traversal at the object reached so far and is a
no-op, the loop continuing with the remaining keys, provided the key's
final segment is not a field of the object where traversal stopped.  (When
the final segment does name a field there, the `break` in the source falls
through to the final `setattr` and overwrites it — see the counterexample;
and a final segment naming a non-field attribute such as a `BaseModel`
method makes pydantic v1's `__setattr__` raise, aborting the adjustment
loop — which is why the segments are restricted to field names here.) -/
theorem c9_missing_path_amended (o : PyObj) (k : String) (v : PyObj)
    (hseg : ∀ seg ∈ splitDots k, seg ∈ declaredFieldNames)
    (hb : (walkStop o (splitDots k).dropLast).2 = true)
    (hl : ((walkStop o (splitDots k).dropLast).1).hasattr
        ((splitDots k).getLastD "") = false) :
    applyImprovements o [(k, v)] = o ∧
    ∀ rest : List (String × PyObj),
      applyImprovements o ((k, v) :: rest) = applyImprovements o rest := by
  have h1 : applyImprovements o [(k, v)] = o := by
    simp only [applyImprovements, List.foldl_cons, List.foldl_nil]
    exact applyKey_noop _ o _ v hb hl
  refine ⟨h1, fun rest => ?_⟩
  simp only [applyImprovements, List.foldl_cons] at h1 ⊢
  simp only [List.foldl_nil] at h1
  rw [h1]

/-- Field view of a `UserNeeds` instance for the dynamic adjustment model:
the slot names are exactly the thirteen declared fields of the pydantic
model, with the nested `TimeRange` and `BudgetRange` models expanded into
their own field slots; list-valued fields are attribute-less leaves
rendered as display strings, since path traversal never enters them.
`BaseModel` method and dunder attributes are outside the model — the
theorems consult this object only at declared field names, where the model
and Python agree (see `declaredFieldNames`). -/
def needsObj : PyObj :=
  .acons "user_id" (.leaf .pynone) (
  .acons "departure_city" (.leaf (.str "北京")) (
  .acons "arrival_city" (.leaf (.str "上海")) (
  .acons "departure_time_range"
    (.acons "start_time" (.leaf .pynone) (
     .acons "end_time" (.leaf .pynone) (
     .acons "flexible_hours" (.leaf .pynone) (
     .acons "preferred_time" (.leaf (.str "morning")) .anil)))) (
  .acons "return_time_range" (.leaf .pynone) (
  .acons "preferred_transport_types" (.leaf (.str "[train]")) (
  .acons "preferred_seat_classes" (.leaf .pynone) (
  .acons "budget"
    (.acons "min_price" (.leaf .pynone) (
     .acons "max_price" (.leaf (.num 1000)) (
     .acons "target_price" (.leaf .pynone) (
     .acons "price_level" (.leaf (.str "any")) .anil)))) (
  .acons "priorities" (.leaf (.str "[price]")) (
  .acons "max_transfers" (.leaf .pynone) (
  .acons "max_duration_minutes" (.leaf .pynone) (
  .acons "special_requirements" (.leaf .pynone) (
  .acons "historical_preference" (.leaf .pynone) .anil))))))))))))

/-- C9 counterexample: the key `"zz.budget"` has the non-existent
intermediate segment `"zz"`, so by the claim it should be a no-op; but the
`break` in `apply_improvements` leaves the traversal target at the needs
object itself and the subsequent `setattr` finds that `"budget"` is an
attribute of it, so the whole `budget` sub-object is overwritten with the
raw value 500 — the adjusted needs differ from the original. -/
theorem c9_missing_path_counterexample :
    needsObj.hasattr "zz" = false ∧
    (walkStop needsObj (splitDots "zz.budget").dropLast).2 = true ∧
    applyImprovements needsObj [("zz.budget", .leaf (.num 500))] ≠ needsObj ∧
    (applyImprovements needsObj [("zz.budget", .leaf (.num 500))]).getattr "budget" =
      some (.leaf (.num 500)) := by
  exact ⟨by decide, by decide, by decide, by decide⟩

/-- Witness for the amended C9: both segments of the key
`"start_time.min_price"` are declared field names, the walk breaks at
`"start_time"` (a `TimeRange` field, not a `UserNeeds` one), and the final
segment `"min_price"` (a `BudgetRange` field) is no attribute of the needs
object either, so the key is a no-op and the loop continues unchanged. -/
theorem c9_missing_path_amended_witness :
    (∀ seg ∈ splitDots "start_time.min_price", seg ∈ declaredFieldNames) ∧
    (walkStop needsObj (splitDots "start_time.min_price").dropLast).2 = true ∧
    ((walkStop needsObj (splitDots "start_time.min_price").dropLast).1).hasattr
      ((splitDots "start_time.min_price").getLastD "") = false ∧
    (applyImprovements needsObj [("start_time.min_price", .leaf (.num 5))] = needsObj ∧
     ∀ rest : List (String × PyObj),
       applyImprovements needsObj (("start_time.min_price", .leaf (.num 5)) :: rest) =
         applyImprovements needsObj rest) :=
  ⟨by decide, by decide, by decide,
   c9_missing_path_amended needsObj "start_time.min_price" (.leaf (.num 5))
     (by decide) (by decide) (by decide)⟩

/-- Environment of deterministic collaborators for the C4 scenario: the
evaluator always reports overall score 70 (below the 85 threshold), one
candidate is always supplied, and the reflect capability proposes a budget
adjustment. -/
def env4 : Env :=
  { extractNeeds := fun _ => sampleNeeds
    fetchTickets := fun _ => [sampleTrain "a" 600 10]
    evalRec := fun _ _ =>
      ({ needs_match_score := 70, completeness_score := 70,
         practicality_score := 70, overall_score := 70 }, ["需要更多符合预算的选项"])
    reflectAdjust := fun _ _ _ _ => [("budget.max_price", .leaf (.num 800))]
    adjustNeeds := fun n _ => n }

/-- C4 counterexample: with threshold 85, `max_iterations = 2` and an
evaluator that always returns overall score 70, `recommend` does perform
exactly 2 reflect/rebuild cycles and does return a `completed`
recommendation — but that recommendation's `reflection_iterations` field is
0, not 2: each cycle attaches its feedback to the recommendation it is
about to discard and rebuilds a fresh one whose counter starts at 0. -/
theorem c4_two_cycles_counterexample :
    (recommend env4 2 85 "查询文本").2 = 2 ∧
    (recommend env4 2 85 "查询文本").1.status = .completed ∧
    (recommend env4 2 85 "查询文本").1.reflection_iterations = 0 ∧
    (recommend env4 2 85 "查询文本").1.reflection_iterations ≠ 2 :=
  ⟨rfl, rfl, rfl, by decide⟩

/-- Helper: one reflect-loop iteration under an evaluator that always
returns overall score 70 (below the 85 threshold) reflects, adjusts and
rebuilds. -/
theorem reflectLoop_step70 (env : Env) (q : String) (fuel iter : ℕ) (needs : UserNeeds)
    (rec : Recommendation) (heval : ∀ r n, (env.evalRec r n).1.overall_score = 70) :
    reflectLoop env 85 q (fuel + 1) iter needs rec =
      (let ev := env.evalRec rec needs
       let needs1 := env.adjustNeeds needs
         (env.reflectAdjust { rec with scores := ev.1 } needs ev.1 ev.2)
       let next := reflectLoop env 85 q fuel (iter + 1) needs1
         { generateRecommendations needs1 (env.fetchTickets needs1) q with status := .refined }
       (next.1, next.2 + 1)) := by
  simp only [reflectLoop, heval]
  norm_num

/-- Helper: the closed form of a full 2-iteration run of the reflect loop
under an evaluator that always returns overall score 70. -/
theorem reflectLoop_two70 (env : Env) (q : String) (iter : ℕ) (needs : UserNeeds)
    (rec : Recommendation) (heval : ∀ r n, (env.evalRec r n).1.overall_score = 70) :
    reflectLoop env 85 q 2 iter needs rec =
      (let ev := env.evalRec rec needs
       let needs1 := env.adjustNeeds needs
         (env.reflectAdjust { rec with scores := ev.1 } needs ev.1 ev.2)
       let rec1 : Recommendation :=
         { generateRecommendations needs1 (env.fetchTickets needs1) q with status := .refined }
       let ev1 := env.evalRec rec1 needs1
       let needs2 := env.adjustNeeds needs1
         (env.reflectAdjust { rec1 with scores := ev1.1 } needs1 ev1.1 ev1.2)
       ({ generateRecommendations needs2 (env.fetchTickets needs2) q with status := .refined },
        2)) := by
  rw [show (2 : ℕ) = (0 + 1) + 1 from rfl]
  rw [reflectLoop_step70 env q (0 + 1) iter needs rec heval]
  simp only []
  rw [reflectLoop_step70 env q 0 (iter + 1) _ _ heval]
  simp only [reflectLoop]

/-- C4 (amended): with threshold 85, `max_iterations = 2`, a non-empty
candidate supply and an evaluator returning overall score 70 on every
iteration, `recommend` performs exactly 2 reflect/adjust cycles and returns
the 2nd cycle's freshly rebuilt recommendation (not the 1st cycle's),
finalized with status `completed` — and that recommendation's
`reflection_iterations` field equals 0, not 2, because feedback is recorded
on the superseded recommendation of each cycle and discarded at rebuild. -/
theorem c4_two_cycles_amended (env : Env) (conv : String)
    (heval : ∀ r n, (env.evalRec r n).1.overall_score = 70)
    (hne : (env.fetchTickets (env.extractNeeds conv)).isEmpty = false) :
    (let needs0 := env.extractNeeds conv
     let rec0 := generateRecommendations needs0 (env.fetchTickets needs0) conv
     let ev0 := env.evalRec rec0 needs0
     let needs1 := env.adjustNeeds needs0
       (env.reflectAdjust { rec0 with scores := ev0.1 } needs0 ev0.1 ev0.2)
     let rec1 : Recommendation :=
       { generateRecommendations needs1 (env.fetchTickets needs1) conv with
           status := .refined }
     let ev1 := env.evalRec rec1 needs1
     let needs2 := env.adjustNeeds needs1
       (env.reflectAdjust { rec1 with scores := ev1.1 } needs1 ev1.1 ev1.2)
     recommend env 2 85 conv =
       ({ generateRecommendations needs2 (env.fetchTickets needs2) conv with
            status := .completed }, 2)) ∧
    (recommend env 2 85 conv).1.reflection_iterations = 0 := by
  simp only [recommend, hne, Bool.false_eq_true, if_false]
  rw [reflectLoop_two70 env conv 0 _ _ heval]
  simp only [ne_eq, reduceCtorEq, not_false_eq_true, if_true, generateRecommendations]
  exact ⟨trivial, trivial⟩

/-- Witness for the amended C4 at the concrete environment `env4`. -/
theorem c4_two_cycles_amended_witness :
    (∀ r n, (env4.evalRec r n).1.overall_score = 70) ∧
    (env4.fetchTickets (env4.extractNeeds "查询文本")).isEmpty = false ∧
    ((let needs0 := env4.extractNeeds "查询文本"
      let rec0 := generateRecommendations needs0 (env4.fetchTickets needs0) "查询文本"
      let ev0 := env4.evalRec rec0 needs0
      let needs1 := env4.adjustNeeds needs0
        (env4.reflectAdjust { rec0 with scores := ev0.1 } needs0 ev0.1 ev0.2)
      let rec1 : Recommendation :=
        { generateRecommendations needs1 (env4.fetchTickets needs1) "查询文本" with
            status := .refined }
      let ev1 := env4.evalRec rec1 needs1
      let needs2 := env4.adjustNeeds needs1
        (env4.reflectAdjust { rec1 with scores := ev1.1 } needs1 ev1.1 ev1.2)
      recommend env4 2 85 "查询文本" =
        ({ generateRecommendations needs2 (env4.fetchTickets needs2) "查询文本" with
             status := .completed }, 2)) ∧
     (recommend env4 2 85 "查询文本").1.reflection_iterations = 0) :=
  ⟨fun _ _ => rfl, rfl,
   c4_two_cycles_amended env4 "查询文本" (fun _ _ => rfl) rfl⟩
